import Mathlib

/-!
Verification of the raft consensus core against its specification.

The deterministic tick rules are embedded from `src/tick.c`.  Components whose
implementation files are not part of the analysed sources (configuration.c,
state.c, log.c, fixture.c) are modelled from the specification document; each
such definition carries a doc comment starting with `Modelled from the spec:`.
Machine integers are modelled as `Nat`; the 32-bit truncation performed by C
`unsigned` arithmetic is made explicit with `% U32` where the source computes
with `unsigned` values.
-/

/-- Width of a C `unsigned` value: 2 to the 32. -/
def U32 : Nat := 4294967296

/-- Role of a raft engine, mirroring RAFT_UNAVAILABLE, RAFT_FOLLOWER,
RAFT_CANDIDATE and RAFT_LEADER. -/
inductive RaftRole where
  | unavailable
  | follower
  | candidate
  | leader
deriving DecidableEq, Repr

/-- Modelled from the spec: a configuration entry for a single server, with an
id, an (opaque) address and a voting flag (spec section 3, Configuration; the
header defining struct raft_server is not under src/). -/
structure RaftServer where
  id : Nat
  address : Nat
  voting : Bool
deriving DecidableEq, Repr

/-- Modelled from the spec: an ordered list of servers with no duplicate ids
(spec section 3, Configuration). -/
structure RaftConfiguration where
  servers : List RaftServer
deriving DecidableEq, Repr

/-- Modelled from the spec: look up a server by id in a configuration
(configuration.c is not under src/; the follower tick uses it to find the
local server). -/
def configuration__get (c : RaftConfiguration) (id : Nat) : Option RaftServer :=
  c.servers.find? (fun s => s.id == id)

/-- Modelled from the spec: number of voting servers in a configuration
(configuration.c is not under src/; spec glossary, Voter/Quorum). -/
def configuration__n_voting (c : RaftConfiguration) : Nat :=
  (c.servers.filter (fun s => s.voting)).length

/-- Modelled from the spec: per-follower replication progress kept by a leader,
with next-index, match-index and the time of the last contact (spec sections 3
and 4.3; the header defining struct raft_replication is not under src/). -/
structure RaftReplication where
  next_index : Nat
  match_index : Nat
  last_contact : Nat
deriving DecidableEq, Repr

/-- Modelled from the spec: leader-specific state, with one replication record
per configuration slot and the promotion catch-up bookkeeping (spec sections 3
and 4.7; the header defining the leader state is not under src/). -/
structure RaftLeaderState where
  replication : List RaftReplication
  promotee_id : Nat
  round_index : Nat
  round_number : Nat
  round_duration : Nat
deriving DecidableEq, Repr

/-- Modelled from the spec: the fields of struct raft read or written by the
tick logic in src/tick.c (the header defining struct raft is not under src/).
Times are monotonic milliseconds. -/
structure Raft where
  id : Nat
  state : RaftRole
  current_term : Nat
  voted_for : Nat
  configuration : RaftConfiguration
  election_timeout : Nat
  election_timeout_rand : Nat
  heartbeat_timeout : Nat
  timer : Nat
  last_tick : Nat
  leader_state : RaftLeaderState
deriving DecidableEq, Repr

/-- Number of milliseconds after which a server promotion is aborted if the
server has not caught up with the logs yet (RAFT_MAX_CATCH_UP_DURATION in
src/tick.c, 30 * 1000). -/
def RAFT_MAX_CATCH_UP_DURATION : Nat := 30 * 1000

/-- Timeout selected by raft_next_timeout in src/tick.c: the heartbeat timeout
for a leader and the randomized election timeout otherwise. -/
def raft_tick_timeout (r : Raft) : Nat :=
  if r.state = RaftRole.leader then r.heartbeat_timeout else r.election_timeout_rand

/-- Embedding of raft_next_timeout from src/tick.c: the selected timeout minus
the accumulated timer when the former is larger, 0 otherwise. -/
def raft_next_timeout (r : Raft) : Nat :=
  let timeout := raft_tick_timeout r
  if timeout > r.timer then timeout - r.timer else 0

/-- Modelled from the spec: raft_state__convert_to_candidate together with the
election start it performs (state.c and election.c are not under src/).  Spec
section 4.2: a role change resets the election timer and re-draws the
randomized election timeout (passed here as `rand`); starting an election
increments the term and votes for self. -/
def raft_state__convert_to_candidate (r : Raft) (rand : Nat) : Raft :=
  { r with
    state := RaftRole.candidate
    current_term := r.current_term + 1
    voted_for := r.id
    election_timeout_rand := rand
    timer := 0 }

/-- Modelled from the spec: raft_state__convert_to_follower (state.c is not
under src/).  Spec section 4.2: converting to follower takes a target term and
updates `current_term` and clears `voted_for` only when the target term is
strictly greater; the role change resets the election timer. -/
def raft_state__convert_to_follower (r : Raft) (term : Nat) : Raft :=
  { r with
    state := RaftRole.follower
    current_term := if r.current_term < term then term else r.current_term
    voted_for := if r.current_term < term then 0 else r.voted_for
    timer := 0 }

/-- Embedding of follower_tick from src/tick.c: look up the local server in the
active configuration; if absent do nothing, otherwise convert to candidate
exactly when the timer exceeds the randomized election timeout and the local
server is voting. -/
def follower_tick (r : Raft) (rand : Nat) : Raft :=
  match configuration__get r.configuration r.id with
  | none => r
  | some server =>
      if r.timer > r.election_timeout_rand && server.voting then
        raft_state__convert_to_candidate r rand
      else
        r

/-- Embedding of candidate_tick from src/tick.c: start a new election when the
timer exceeds the randomized election timeout. -/
def candidate_tick (r : Raft) (rand : Nat) : Raft :=
  if r.timer > r.election_timeout_rand then
    raft_state__convert_to_candidate r rand
  else
    r

/-- Embedding of leader_has_been_contacted_by_majority_of_servers from
src/tick.c: count the voting servers whose last contact is at most one
election timeout old, always counting the leader itself, and compare the count
against half the number of voting servers.  The loop walks the configuration
in parallel with the replication array; `elapsed` is a C `unsigned`, hence the
truncation modulo U32. -/
def leader_has_been_contacted_by_majority_of_servers (r : Raft) (now : Nat) : Bool :=
  let pairs := r.configuration.servers.zip r.leader_state.replication
  let contacts := pairs.countP (fun p =>
    p.1.voting && (p.1.id == r.id || (now - p.2.last_contact) % U32 ≤ r.election_timeout))
  contacts > configuration__n_voting r.configuration / 2

/-- Embedding of leader_tick from src/tick.c.  Step down (keeping the current
term) when not contacted by a majority; otherwise reset the timer when the
heartbeat timeout has elapsed (the replication trigger itself is I/O and does
not change the modelled state), and while a promotion is in progress add the
elapsed milliseconds to the round duration and abort the promotion when the
10th round is over the election timeout or the duration exceeds
RAFT_MAX_CATCH_UP_DURATION. -/
def leader_tick (r : Raft) (now : Nat) (msec_since_last_tick : Nat) : Raft :=
  if !leader_has_been_contacted_by_majority_of_servers r now then
    raft_state__convert_to_follower r r.current_term
  else
    let timer1 := if r.timer > r.heartbeat_timeout then 0 else r.timer
    if r.leader_state.promotee_id ≠ 0 then
      let round_duration := r.leader_state.round_duration + msec_since_last_tick
      let is_too_slow :=
        r.leader_state.round_number = 10 ∧ round_duration > r.election_timeout
      let is_unresponsive := round_duration > RAFT_MAX_CATCH_UP_DURATION
      if is_too_slow ∨ is_unresponsive then
        { r with
          timer := timer1
          leader_state :=
            { r.leader_state with
              promotee_id := 0
              round_index := 0
              round_number := 0
              round_duration := 0 } }
      else
        { r with
          timer := timer1
          leader_state := { r.leader_state with round_duration := round_duration } }
    else
      { r with timer := timer1 }

/-- Embedding of the static tick function from src/tick.c: do nothing when
unavailable, otherwise accumulate the elapsed milliseconds into the timer
(C `unsigned` arithmetic) and dispatch on the role. -/
def tick (r : Raft) (now : Nat) (rand : Nat) : Raft :=
  if r.state = RaftRole.unavailable then r
  else
    let msecs := (now - r.last_tick) % U32
    let r1 := { r with timer := (r.timer + msecs) % U32, last_tick := now }
    match r1.state with
    | RaftRole.follower => follower_tick r1 rand
    | RaftRole.candidate => candidate_tick r1 rand
    | RaftRole.leader => leader_tick r1 now msecs
    | RaftRole.unavailable => r1

/-! ## Sample engines used to witness the tick theorems -/

/-- Voting server with id 1, used in witness configurations. -/
def sampleServer1 : RaftServer := { id := 1, address := 1, voting := true }

/-- Voting server with id 2, used in witness configurations. -/
def sampleServer2 : RaftServer := { id := 2, address := 2, voting := true }

/-- Non-voting server with id 5, used as a promotee in witness configurations. -/
def sampleServer5 : RaftServer := { id := 5, address := 5, voting := false }

/-- Follower engine of server 1 in a single-server configuration, with its
election timer already expired. -/
def sampleFollower : Raft :=
  { id := 1
    state := RaftRole.follower
    current_term := 3
    voted_for := 0
    configuration := { servers := [sampleServer1] }
    election_timeout := 1000
    election_timeout_rand := 1200
    heartbeat_timeout := 100
    timer := 1500
    last_tick := 0
    leader_state :=
      { replication := [], promotee_id := 0, round_index := 0, round_number := 0,
        round_duration := 0 } }

/-- Leader engine of server 1 in a two-voter configuration whose peer has not
been heard from since time 0. -/
def sampleLeader2 : Raft :=
  { id := 1
    state := RaftRole.leader
    current_term := 4
    voted_for := 1
    configuration := { servers := [sampleServer1, sampleServer2] }
    election_timeout := 1000
    election_timeout_rand := 1300
    heartbeat_timeout := 100
    timer := 50
    last_tick := 0
    leader_state :=
      { replication :=
          [ { next_index := 3, match_index := 2, last_contact := 0 },
            { next_index := 3, match_index := 2, last_contact := 0 } ]
        promotee_id := 0
        round_index := 0
        round_number := 0
        round_duration := 0 } }

/-- Leader engine of server 1 that is the only voter and is promoting the
non-voting server 5, currently in its 10th catch-up round. -/
def samplePromotingLeader : Raft :=
  { id := 1
    state := RaftRole.leader
    current_term := 4
    voted_for := 1
    configuration := { servers := [sampleServer1, sampleServer5] }
    election_timeout := 1000
    election_timeout_rand := 1300
    heartbeat_timeout := 100
    timer := 50
    last_tick := 0
    leader_state :=
      { replication :=
          [ { next_index := 3, match_index := 2, last_contact := 0 },
            { next_index := 3, match_index := 2, last_contact := 0 } ]
        promotee_id := 5
        round_index := 7
        round_number := 10
        round_duration := 950 } }

/-! ## Log data model (log.c is not under src/, modelled from the spec and
pinned by the log test suite in the sources) -/

/-- Modelled from the spec: the type of a log entry, command, configuration or
barrier (spec section 3, Entry). -/
inductive RaftEntryType where
  | command
  | configuration
  | barrier
deriving DecidableEq, Repr, Inhabited

/-- Modelled from the spec: a log entry with a term, a type, an opaque payload
(a byte list) and an optional batch handle, 0 meaning none (spec section 3,
Entry). -/
structure RaftEntry where
  term : Nat
  type : RaftEntryType
  buf : List Nat
  batch : Nat
deriving DecidableEq, Repr, Inhabited

/-- Modelled from the spec: one cell of the refs table, keyed by (index, term)
and holding a reference count (spec section 3, Log; the open-addressing layout
is modelled as an association list of cells). -/
structure RaftEntryRef where
  index : Nat
  term : Nat
  count : Nat
deriving DecidableEq, Repr, Inhabited

/-- Modelled from the spec: the ring-buffered log (spec section 3, Log): a
slot array of capacity size (none marks a free slot), ring indices front and
back, the base index offset and the refs table. -/
structure RaftLog where
  entries : List (Option RaftEntry)
  size : Nat
  front : Nat
  back : Nat
  offset : Nat
  refs : List RaftEntryRef
deriving DecidableEq, Repr

/-- Modelled from the spec: a freshly initialized, empty log with no slots
allocated. -/
def log__init : RaftLog :=
  { entries := [], size := 0, front := 0, back := 0, offset := 0, refs := [] }

/-- Modelled from the spec: number of live entries, (back - front) mod size,
0 when no slots are allocated (spec section 3, Log). -/
def log__n_entries (l : RaftLog) : Nat :=
  if l.size = 0 then 0 else (l.back + l.size - l.front) % l.size

/-- Modelled from the spec: index of the first live entry, offset + 1, or 0
when the log is empty (pinned by TEST_CASE(first_index, empty_with_offset)). -/
def log__first_index (l : RaftLog) : Nat :=
  if log__n_entries l = 0 then 0 else l.offset + 1

/-- Modelled from the spec: index of the last live entry, offset + n_entries,
or 0 when the log is empty (pinned by TEST_CASE(last_index,
empty_with_offset)). -/
def log__last_index (l : RaftLog) : Nat :=
  if log__n_entries l = 0 then 0 else l.offset + log__n_entries l

/-- Content of ring slot j, none when out of range or free. -/
def slotAt (l : RaftLog) (j : Nat) : Option RaftEntry :=
  (l.entries[j]?).getD none

/-- Modelled from the spec: the k-th live entry (0-based) lives in slot
(front + k) mod size and has raft index offset + k + 1 (spec section 3,
Log). -/
def log__get (l : RaftLog) (index : Nat) : Option RaftEntry :=
  if l.offset < index ∧ index ≤ log__last_index l then
    slotAt l ((l.front + (index - l.offset - 1)) % l.size)
  else
    none

/-- Modelled from the spec: the term of the entry at the given index, 0 when
out of range (spec section 4.1). -/
def log__term_of (l : RaftLog) (index : Nat) : Nat :=
  match log__get l index with
  | some e => e.term
  | none => 0

/-- Modelled from the spec: term of the last entry, 0 for an empty log (spec
section 4.1). -/
def log__last_term (l : RaftLog) : Nat :=
  log__term_of l (log__last_index l)

/-- Live entries of the log in index order (the k-th element is the entry with
raft index offset + k + 1). -/
def liveEntries (l : RaftLog) : List RaftEntry :=
  (List.range (log__n_entries l)).map
    (fun k => (slotAt l ((l.front + k) % l.size)).getD default)

/-- Increment the count of every refs cell whose (index, term) key matches one
of the entries of the given slice, which starts at the given raft index. -/
def refs_incr_slice (refs : List RaftEntryRef) (index : Nat) (slice : List RaftEntry) :
    List RaftEntryRef :=
  refs.map (fun c =>
    if slice.enum.any (fun p => c.index == index + p.1 && c.term == p.2.term) then
      { c with count := c.count + 1 }
    else
      c)

/-- Decrement the count of every refs cell whose (index, term) key matches one
of the entries of the given slice, which starts at the given raft index.  A
cell whose count reaches 0 stays in the table (pinned by
TEST_CASE(truncate, referenced)). -/
def refs_decr_slice (refs : List RaftEntryRef) (index : Nat) (slice : List RaftEntry) :
    List RaftEntryRef :=
  refs.map (fun c =>
    if slice.enum.any (fun p => c.index == index + p.1 && c.term == p.2.term) then
      { c with count := c.count - 1 }
    else
      c)

/-- Register a fresh entry in the refs table with count 1. -/
def refs_insert (refs : List RaftEntryRef) (index term : Nat) : List RaftEntryRef :=
  refs ++ [{ index := index, term := term, count := 1 }]

/-- Modelled from the spec: grow the ring when the slot count would be
exceeded: the next capacity is 2 * size + 2 (initial 2, then 6, 14, 30, ...)
and the live entries are re-laid out in index order starting at slot 0 (spec
section 4.1, append). -/
def log__ensure_capacity (l : RaftLog) : RaftLog :=
  if log__n_entries l + 1 < l.size then
    l
  else
    { l with
      entries := (liveEntries l).map some ++
        List.replicate (2 * l.size + 2 - log__n_entries l) none
      size := 2 * l.size + 2
      front := 0
      back := log__n_entries l }

/-- Modelled from the spec: place a new entry at index last_index + 1, growing
the ring when needed, and register it in the refs table with count 1 (spec
section 4.1, append; allocation failure is not modelled). -/
def log__append (l : RaftLog) (term : Nat) (type : RaftEntryType) (buf : List Nat)
    (batch : Nat) : RaftLog :=
  { log__ensure_capacity l with
    entries := (log__ensure_capacity l).entries.set (log__ensure_capacity l).back
      (some { term := term, type := type, buf := buf, batch := batch })
    back := ((log__ensure_capacity l).back + 1) % (log__ensure_capacity l).size
    refs := refs_insert (log__ensure_capacity l).refs (l.offset + log__n_entries l + 1) term }

/-- Modelled from the spec: deterministic serialization of a configuration,
modelled as the flattened list of (id, address, voting) triples (spec section
4.1, append_configuration; the wire encoding is opaque to the core). -/
def configuration__encode (c : RaftConfiguration) : List Nat :=
  c.servers.foldr (fun s acc => s.id :: s.address :: (if s.voting then 1 else 0) :: acc) []

/-- Modelled from the spec: serialize the configuration and append it as a
configuration entry (spec section 4.1). -/
def log__append_configuration (l : RaftLog) (term : Nat) (c : RaftConfiguration) : RaftLog :=
  log__append l term RaftEntryType.configuration (configuration__encode c) 0

/-- Slice of the live entries from the given raft index through last_index,
as materialized by acquire. -/
def acquireSlice (l : RaftLog) (index : Nat) : List RaftEntry :=
  (List.range (log__last_index l + 1 - index)).map
    (fun j => (log__get l (index + j)).getD default)

/-- Slice of the live entries removed by a truncate starting at the given raft
index (through last_index). -/
def truncSlice (l : RaftLog) (start : Nat) : List RaftEntry :=
  (List.range (log__last_index l + 1 - start)).map
    (fun j => (log__get l (start + j)).getD default)

/-- Slice of the live entries removed by a shift up to the given raft index
(from first_index). -/
def shiftSlice (l : RaftLog) (index : Nat) : List RaftEntry :=
  (List.range (index - l.offset)).map
    (fun j => (log__get l (l.offset + 1 + j)).getD default)

/-- Modelled from the spec: return the contiguous slice of entries from the
given index through last_index, bumping the refcount of each returned entry;
a no-op returning the empty slice when the index is outside the live range
(spec section 4.1, acquire). -/
def log__acquire (l : RaftLog) (index : Nat) : List RaftEntry × RaftLog :=
  if index ≤ l.offset ∨ log__last_index l < index then
    ([], l)
  else
    (acquireSlice l index,
      { l with refs := refs_incr_slice l.refs index (acquireSlice l index) })

/-- Modelled from the spec: decrement the refcount of each entry of a slice
previously returned by acquire (spec section 4.1, release; freeing payload
memory has no observable effect on the modelled state and a cell that reaches
count 0 stays in the table). -/
def log__release (l : RaftLog) (index : Nat) (slice : List RaftEntry) : RaftLog :=
  { l with refs := refs_decr_slice l.refs index slice }

/-- Modelled from the spec: discard the entries at and after the given index,
dropping the log's own reference of each; the ring is freed when the log
becomes empty (spec section 4.1, truncate, pinned by TEST_CASE(truncate,
1_last) and TEST_CASE(truncate, compacted)). -/
def log__truncate (l : RaftLog) (index : Nat) : RaftLog :=
  if log__n_entries l = 0 ∨ log__last_index l < max index (l.offset + 1) then
    l
  else if log__n_entries l - (log__last_index l + 1 - max index (l.offset + 1)) = 0 then
    { entries := [], size := 0, front := 0, back := 0, offset := l.offset,
      refs := refs_decr_slice l.refs (max index (l.offset + 1))
        (truncSlice l (max index (l.offset + 1))) }
  else
    { l with
      back := (l.front +
        (log__n_entries l - (log__last_index l + 1 - max index (l.offset + 1)))) % l.size
      refs := refs_decr_slice l.refs (max index (l.offset + 1))
        (truncSlice l (max index (l.offset + 1))) }

/-- Modelled from the spec: discard the entries at or below the given index,
advance offset to it and drop the log's own reference of each discarded
entry; the ring is freed when the log becomes empty (spec section 4.1, shift,
pinned by TEST_CASE(shift, 1_first) and TEST_CASE(shift, wrap)). -/
def log__shift (l : RaftLog) (index : Nat) : RaftLog :=
  if log__n_entries l = 0 ∨ log__last_index l < index ∨ index ≤ l.offset then
    l
  else if log__n_entries l - (index - l.offset) = 0 then
    { entries := [], size := 0, front := 0, back := 0, offset := index,
      refs := refs_decr_slice l.refs (l.offset + 1) (shiftSlice l index) }
  else
    { l with
      front := (l.front + (index - l.offset)) % l.size
      offset := index
      refs := refs_decr_slice l.refs (l.offset + 1) (shiftSlice l index) }

/-- Modelled from the spec: install the starting index after loading a
snapshot into an empty log (spec section 4.1, set_offset). -/
def log__set_offset (l : RaftLog) (offset : Nat) : RaftLog :=
  { l with offset := offset }

/-- Well-formedness of the ring bookkeeping: the slot array has exactly size
cells, and front and back are valid ring indices (0 when no slots are
allocated). -/
def LogWF (l : RaftLog) : Prop :=
  l.entries.length = l.size ∧
  (l.size = 0 → l.front = 0 ∧ l.back = 0) ∧
  (0 < l.size → l.front < l.size ∧ l.back < l.size)

/-- Ring capacities that actually occur: 0 before any slot is allocated,
otherwise a power of two minus two (2, 6, 14, 30, ...). -/
def RingSizeOk (s : Nat) : Prop :=
  s = 0 ∨ (2 ≤ s ∧ ∃ k, s + 2 = 2 ^ k)

/-- Log states reachable from a fresh log through the public log
operations. -/
inductive LogReachable : RaftLog → Prop where
  | init : LogReachable log__init
  | append (l : RaftLog) (term : Nat) (type : RaftEntryType) (buf : List Nat) (batch : Nat) :
      LogReachable l → LogReachable (log__append l term type buf batch)
  | append_configuration (l : RaftLog) (term : Nat) (c : RaftConfiguration) :
      LogReachable l → LogReachable (log__append_configuration l term c)
  | truncate (l : RaftLog) (index : Nat) :
      LogReachable l → LogReachable (log__truncate l index)
  | shift (l : RaftLog) (index : Nat) :
      LogReachable l → LogReachable (log__shift l index)
  | set_offset (l : RaftLog) (offset : Nat) :
      LogReachable l → LogReachable (log__set_offset l offset)
  | acquire (l : RaftLog) (index : Nat) :
      LogReachable l → LogReachable (log__acquire l index).2
  | release (l : RaftLog) (index : Nat) (slice : List RaftEntry) :
      LogReachable l → LogReachable (log__release l index slice)

/-- Log holding one command entry with term 1, used as a witness. -/
def sampleLog1 : RaftLog :=
  log__append log__init 1 RaftEntryType.command [7] 0

/-- Log holding two command entries with term 1, used as a witness. -/
def sampleLog2 : RaftLog :=
  log__append sampleLog1 1 RaftEntryType.command [8] 0

/-! ## Cluster fixture model (fixture.c and the replication/apply path of the
engine are not under src/; modelled from the spec, with the fixture header and
the fixture test suite among the sources) -/

/-- Modelled from the spec: an entry of a fixture server's log, either the
bootstrap configuration entry or a command adding an amount to the test FSM
register x (spec sections 3 and 8, scenario 2: the test FSM applies a command
payload by adding its encoded amount to x). -/
inductive ClusterEntry where
  | configuration
  | command (amount : Nat)
deriving DecidableEq, Repr

/-- Modelled from the spec: the observable state of one fixture server: its
log, commit index, last applied index and the test FSM register x (spec
sections 4.3 and 4.8). -/
structure ClusterServer where
  log : List ClusterEntry
  commit_index : Nat
  last_applied : Nat
  x : Nat
deriving DecidableEq, Repr

/-- Modelled from the spec: a fixture cluster: the servers and the index of
the elected leader (spec section 4.8). -/
structure Cluster where
  servers : List ClusterServer
  leader : Nat
deriving DecidableEq, Repr

/-- Modelled from the spec: apply the next committed entry to the FSM, in
index order (spec section 4.3, Apply: a command entry invokes FSM.apply,
which adds the encoded amount to x; a configuration entry only installs the
configuration).  The entry at raft index last_applied + 1 is list element
last_applied. -/
def fsm_apply_next (s : ClusterServer) : ClusterServer :=
  if s.last_applied < s.commit_index then
    match s.log[s.last_applied]? with
    | some (ClusterEntry.command amount) =>
        { s with last_applied := s.last_applied + 1, x := s.x + amount }
    | some ClusterEntry.configuration =>
        { s with last_applied := s.last_applied + 1 }
    | none => s
  else
    s

/-- Modelled from the spec: one fixture step with a stable leader and a fully
connected cluster: the leader's entries reach every server (AppendEntries),
each server's commit index advances to the replicated length (the quorum of
all servers has stored them, and followers take min(leader_commit,
last_stored), which coincide here), and one committed entry is applied (spec
sections 4.3, 4.4 and 4.8). -/
def raft_fixture_step (c : Cluster) : Cluster :=
  match c.servers[c.leader]? with
  | none => c
  | some ld =>
      { c with servers := c.servers.map (fun s =>
          fsm_apply_next { s with log := ld.log, commit_index := ld.log.length }) }

/-- Modelled from the spec: step the cluster until every one of the first n
servers has applied the entry at the given index, within the given step
budget (raft_fixture_step_until_applied is declared in the fixture header;
its implementation is not under src/). -/
def raft_fixture_step_until_applied (c : Cluster) (n : Nat) (index : Nat) : Nat → Cluster
  | 0 => c
  | fuel + 1 =>
      if (c.servers.take n).all (fun s => index ≤ s.last_applied) then c
      else raft_fixture_step_until_applied (raft_fixture_step c) n index fuel

/-- Modelled from the spec: a bootstrapped 3-server cluster (bootstrap writes
the initial configuration entry at index 1 into every log) in which server 0
has been elected leader (spec section 8, scenario 1, and section 3,
Bootstrap). -/
def cluster3_bootstrapped : Cluster :=
  { servers := List.replicate 3
      { log := [ClusterEntry.configuration], commit_index := 0, last_applied := 0, x := 0 }
    leader := 0 }

/-- Modelled from the spec: the leader appends a submitted command to its own
log at index last_index + 1 (raft_apply on the leader; spec section 4.2,
apply_request). -/
def cluster_submit (c : Cluster) (amount : Nat) : Cluster :=
  match c.servers[c.leader]? with
  | none => c
  | some ld =>
      { c with
        servers :=
          c.servers.set c.leader { ld with log := ld.log ++ [ClusterEntry.command amount] } }

/-! ## Theorems -/

/-! ## Helper lemmas about the leader tick -/

theorem leader_tick_of_not_contacted (r : Raft) (now msec : Nat)
    (hc : leader_has_been_contacted_by_majority_of_servers r now = false) :
    leader_tick r now msec = raft_state__convert_to_follower r r.current_term := by
  unfold leader_tick
  rw [hc]
  rfl

theorem convert_to_follower_same_term (r : Raft) :
    (raft_state__convert_to_follower r r.current_term).state = RaftRole.follower ∧
    (raft_state__convert_to_follower r r.current_term).current_term = r.current_term := by
  refine ⟨rfl, ?_⟩
  simp [raft_state__convert_to_follower]

theorem leader_tick_of_contacted (r : Raft) (now msec : Nat)
    (hc : leader_has_been_contacted_by_majority_of_servers r now = true) :
    (leader_tick r now msec).state = r.state ∧
    (leader_tick r now msec).current_term = r.current_term := by
  unfold leader_tick
  rw [hc]
  simp only [Bool.not_true, Bool.false_eq_true, if_false]
  split <;> try split
  all_goals simp_all

/-! ## Claims about the tick rules (src/tick.c) -/

/-- Claim C10: for every engine state, raft_next_timeout returns
timeout - timer when timer < timeout, where timeout is heartbeat_timeout if
the engine is leader and election_timeout_rand otherwise, and returns exactly
0 whenever timer >= timeout; the guarded subtraction is exact (it never
wraps), as expressed by the equation result + timer = timeout. -/
theorem raft_next_timeout_spec (r : Raft) :
    (r.timer < raft_tick_timeout r →
      raft_next_timeout r = raft_tick_timeout r - r.timer ∧
      raft_next_timeout r + r.timer = raft_tick_timeout r) ∧
    (raft_tick_timeout r ≤ r.timer → raft_next_timeout r = 0) := by
  simp only [raft_next_timeout]
  constructor
  · intro h
    rw [if_pos h]
    omega
  · intro h
    rw [if_neg (by omega)]

/-- Witness for C10: a follower with timer 1500 and randomized election
timeout 1200 is past its timeout, and the same follower with the timer read
back at 40 would still have 1160 milliseconds to go. -/
theorem raft_next_timeout_spec_witness :
    { sampleFollower with timer := 40 }.timer <
      raft_tick_timeout { sampleFollower with timer := 40 } ∧
    raft_next_timeout { sampleFollower with timer := 40 } =
      raft_tick_timeout { sampleFollower with timer := 40 } -
        { sampleFollower with timer := 40 }.timer ∧
    raft_next_timeout { sampleFollower with timer := 40 } +
        { sampleFollower with timer := 40 }.timer =
      raft_tick_timeout { sampleFollower with timer := 40 } :=
  ⟨by decide, (raft_next_timeout_spec { sampleFollower with timer := 40 }).1 (by decide)⟩

/-- Claim C2: for every engine in the follower state, a tick converts the
engine to candidate if and only if the local server is present in the active
configuration as a voting server and the accumulated timer exceeds the
randomized election timeout; in every other case the tick leaves the follower
completely unchanged. -/
theorem follower_tick_spec (r : Raft) (rand : Nat) (h : r.state = RaftRole.follower) :
    ((∃ s, configuration__get r.configuration r.id = some s ∧ s.voting = true) ∧
        r.election_timeout_rand < r.timer →
      (follower_tick r rand).state = RaftRole.candidate) ∧
    (¬ ((∃ s, configuration__get r.configuration r.id = some s ∧ s.voting = true) ∧
        r.election_timeout_rand < r.timer) →
      follower_tick r rand = r) := by
  constructor
  · rintro ⟨⟨s, hs, hv⟩, ht⟩
    simp only [follower_tick, hs]
    rw [if_pos (by simp [hv, ht])]
    rfl
  · intro hn
    cases hget : configuration__get r.configuration r.id with
    | none => simp only [follower_tick, hget]
    | some s =>
        simp only [follower_tick, hget]
        rw [if_neg]
        simp only [Bool.and_eq_true, decide_eq_true_eq, not_and]
        intro ht hv
        exact absurd ⟨⟨s, hget, hv⟩, ht⟩ hn

/-- Witness for C2: server 1 is a voting member of its own configuration and
its timer 1500 exceeds the randomized timeout 1200, so the tick converts it to
candidate. -/
theorem follower_tick_spec_witness :
    sampleFollower.state = RaftRole.follower ∧
    (follower_tick sampleFollower 1100).state = RaftRole.candidate :=
  ⟨rfl, (follower_tick_spec sampleFollower 1100 rfl).1
    ⟨⟨sampleServer1, by decide, by decide⟩, by decide⟩⟩

/-- Claim C1: for every engine in the leader state, a tick converts the engine
to follower while leaving its current term unchanged if and only if the leader
has not been contacted by a strict majority of the voting servers within the
last election_timeout milliseconds (the test computed by
leader_has_been_contacted_by_majority_of_servers); otherwise it remains
leader. -/
theorem leader_tick_step_down_spec (r : Raft) (now msec : Nat)
    (h : r.state = RaftRole.leader) :
    (leader_has_been_contacted_by_majority_of_servers r now = false →
      (leader_tick r now msec).state = RaftRole.follower ∧
      (leader_tick r now msec).current_term = r.current_term) ∧
    (leader_has_been_contacted_by_majority_of_servers r now = true →
      (leader_tick r now msec).state = RaftRole.leader) := by
  constructor
  · intro hc
    rw [leader_tick_of_not_contacted r now msec hc]
    exact convert_to_follower_same_term r
  · intro hc
    rw [(leader_tick_of_contacted r now msec hc).1, h]

/-- Witness for C1: at time 5000, the two-voter leader sampleLeader2 has not
heard from server 2 for 5000 milliseconds, more than its election timeout of
1000, so a tick makes it step down to follower at its current term 4. -/
theorem leader_tick_step_down_spec_witness :
    sampleLeader2.state = RaftRole.leader ∧
    leader_has_been_contacted_by_majority_of_servers sampleLeader2 5000 = false ∧
    (leader_tick sampleLeader2 5000 100).state = RaftRole.follower ∧
    (leader_tick sampleLeader2 5000 100).current_term = sampleLeader2.current_term :=
  ⟨rfl, by decide, (leader_tick_step_down_spec sampleLeader2 5000 100 rfl).1 (by decide)⟩

/-- Claim C9: in the leader step-down check the leader always counts itself as
contacted, regardless of any last_contact timestamp; consequently, whenever
the leader is the only voting server of its configuration, the
contacted-by-majority test succeeds and a leader tick never converts the
engine to follower through the step-down rule. -/
theorem leader_tick_sole_voter_spec (r : Raft) (now msec : Nat)
    (h : r.state = RaftRole.leader)
    (hlen : r.configuration.servers.length ≤ r.leader_state.replication.length)
    (hv : (r.configuration.servers.filter (fun s => s.voting)).map (fun s => s.id) =
      [r.id]) :
    leader_has_been_contacted_by_majority_of_servers r now = true ∧
    (leader_tick r now msec).state = RaftRole.leader := by
  have hcontact : leader_has_been_contacted_by_majority_of_servers r now = true := by
    obtain ⟨s0, hf, hid⟩ :
        ∃ s0, r.configuration.servers.filter (fun s => s.voting) = [s0] ∧
          s0.id = r.id := by
      cases hfe : r.configuration.servers.filter (fun s => s.voting) with
      | nil => rw [hfe] at hv; simp at hv
      | cons a t =>
          cases t with
          | nil =>
              rw [hfe] at hv
              simp only [List.map_cons, List.map_nil, List.cons.injEq, and_true] at hv
              exact ⟨a, rfl, hv⟩
          | cons b t2 => rw [hfe] at hv; simp at hv
    have hvot : s0.voting = true :=
      List.of_mem_filter (l := r.configuration.servers) (hf ▸ List.mem_singleton_self s0)
    have hmem : s0 ∈ r.configuration.servers :=
      List.mem_of_mem_filter (hf ▸ List.mem_singleton_self s0)
    obtain ⟨i, hi, hgi⟩ := List.getElem_of_mem hmem
    have hnv : configuration__n_voting r.configuration = 1 := by
      unfold configuration__n_voting; rw [hf]; rfl
    have hizip : i < (r.configuration.servers.zip r.leader_state.replication).length := by
      rw [List.length_zip]
      omega
    have hpair :
        (r.configuration.servers.zip r.leader_state.replication).get ⟨i, hizip⟩ =
          (s0, r.leader_state.replication.get ⟨i, by omega⟩) := by
      simp [List.getElem_zip, hgi]
    have hcount :
        0 < (r.configuration.servers.zip r.leader_state.replication).countP
          (fun p =>
            p.1.voting &&
              (p.1.id == r.id || (now - p.2.last_contact) % U32 ≤ r.election_timeout)) := by
      rw [List.countP_pos_iff]
      refine ⟨(r.configuration.servers.zip r.leader_state.replication).get ⟨i, hizip⟩,
        List.get_mem _ _ _, ?_⟩
      rw [hpair]
      simp [hvot, hid]
    simp only [leader_has_been_contacted_by_majority_of_servers, hnv]
    simpa using hcount
  exact ⟨hcontact, by rw [(leader_tick_of_contacted r now msec hcontact).1, h]⟩

/-- Witness for C9: samplePromotingLeader is the only voter of its
configuration, so it is considered contacted by a majority at any time (here
90000 milliseconds, long after its last contact at time 0) and a tick leaves
it leader. -/
theorem leader_tick_sole_voter_spec_witness :
    samplePromotingLeader.state = RaftRole.leader ∧
    leader_has_been_contacted_by_majority_of_servers samplePromotingLeader 90000 = true ∧
    (leader_tick samplePromotingLeader 90000 0).state = RaftRole.leader :=
  ⟨rfl, (leader_tick_sole_voter_spec samplePromotingLeader 90000 0 rfl (by decide)
    (by decide)).1,
    (leader_tick_sole_voter_spec samplePromotingLeader 90000 0 rfl (by decide)
      (by decide)).2⟩

/-- Claim C3: while a promotion is in progress and the leader passes the
contacted-by-majority check, each leader tick adds the elapsed milliseconds to
round_duration, and aborts the promotion (clearing promotee_id and resetting
round_index, round_number and round_duration to 0, while the engine stays
leader) if and only if either the catch-up is in its 10th round and that round
has taken longer than an election timeout, or the cumulative catch-up duration
exceeds RAFT_MAX_CATCH_UP_DURATION milliseconds. -/
theorem leader_tick_promotion_spec (r : Raft) (now msec : Nat)
    (h : r.state = RaftRole.leader)
    (hc : leader_has_been_contacted_by_majority_of_servers r now = true)
    (hp : r.leader_state.promotee_id ≠ 0) :
    ((r.leader_state.round_number = 10 ∧
        r.election_timeout < r.leader_state.round_duration + msec) ∨
      RAFT_MAX_CATCH_UP_DURATION < r.leader_state.round_duration + msec →
      (leader_tick r now msec).state = RaftRole.leader ∧
      (leader_tick r now msec).leader_state.promotee_id = 0 ∧
      (leader_tick r now msec).leader_state.round_index = 0 ∧
      (leader_tick r now msec).leader_state.round_number = 0 ∧
      (leader_tick r now msec).leader_state.round_duration = 0) ∧
    (¬ ((r.leader_state.round_number = 10 ∧
        r.election_timeout < r.leader_state.round_duration + msec) ∨
      RAFT_MAX_CATCH_UP_DURATION < r.leader_state.round_duration + msec) →
      (leader_tick r now msec).state = RaftRole.leader ∧
      (leader_tick r now msec).leader_state.promotee_id = r.leader_state.promotee_id ∧
      (leader_tick r now msec).leader_state.round_duration =
        r.leader_state.round_duration + msec) := by
  constructor <;> intro hcond <;>
    simp only [leader_tick, hc, Bool.not_true, Bool.false_eq_true, if_false] <;>
    split <;> try split
  all_goals simp_all

/-- Witness for C3: samplePromotingLeader is in its 10th catch-up round with
949 milliseconds accumulated; a tick 101 milliseconds later pushes the round
over its 1000 milliseconds election timeout, so the promotion of server 5 is
aborted while the engine stays leader. -/
theorem leader_tick_promotion_spec_witness :
    samplePromotingLeader.leader_state.promotee_id = 5 ∧
    (leader_tick samplePromotingLeader 200 100).state = RaftRole.leader ∧
    (leader_tick samplePromotingLeader 200 100).leader_state.promotee_id = 0 ∧
    (leader_tick samplePromotingLeader 200 100).leader_state.round_index = 0 ∧
    (leader_tick samplePromotingLeader 200 100).leader_state.round_number = 0 ∧
    (leader_tick samplePromotingLeader 200 100).leader_state.round_duration = 0 :=
  ⟨rfl, (leader_tick_promotion_spec samplePromotingLeader 200 100 rfl (by decide)
    (by decide)).1 (Or.inl ⟨rfl, by decide⟩)⟩

/-! ## Helper lemmas about the log model -/

theorem mod_of_lt_two_mul (v s : Nat) (hs : 0 < s) (hv : v < 2 * s) :
    v % s = if v < s then v else v - s := by
  split
  · exact Nat.mod_eq_of_lt (by omega)
  · rw [Nat.mod_eq_sub_mod (by omega)]
    exact Nat.mod_eq_of_lt (by omega)

theorem n_entries_le_size (l : RaftLog) : log__n_entries l ≤ l.size := by
  unfold log__n_entries
  split
  · omega
  · exact Nat.le_of_lt (Nat.mod_lt _ (by omega))

theorem size_pos_of_n_entries_pos (l : RaftLog) (h : 0 < log__n_entries l) : 0 < l.size := by
  by_contra hs
  have hz : l.size = 0 := by omega
  simp [log__n_entries, hz] at h

theorem liveEntries_length (l : RaftLog) : (liveEntries l).length = log__n_entries l := by
  unfold liveEntries
  rw [List.length_map, List.length_range]

theorem log_ensure_capacity_of_lt (l : RaftLog) (h : log__n_entries l + 1 < l.size) :
    log__ensure_capacity l = l := by
  unfold log__ensure_capacity
  rw [if_pos h]

theorem log_ensure_capacity_of_ge (l : RaftLog) (h : l.size ≤ log__n_entries l + 1) :
    log__ensure_capacity l =
      { l with
        entries := (liveEntries l).map some ++
          List.replicate (2 * l.size + 2 - log__n_entries l) none
        size := 2 * l.size + 2
        front := 0
        back := log__n_entries l } := by
  unfold log__ensure_capacity
  rw [if_neg (by omega)]

theorem ring_size_ok_grow {s : Nat} (h : RingSizeOk s) : RingSizeOk (2 * s + 2) := by
  rcases h with h0 | ⟨h2, k, hk⟩
  · right
    exact ⟨by omega, 2, by subst h0; norm_num⟩
  · refine Or.inr ⟨by omega, k + 1, ?_⟩
    rw [pow_succ]
    omega

theorem log_append_size_ok (l : RaftLog) (term : Nat) (type : RaftEntryType)
    (buf : List Nat) (batch : Nat) (h : RingSizeOk l.size) :
    RingSizeOk (log__append l term type buf batch).size := by
  have hsz : (log__append l term type buf batch).size = (log__ensure_capacity l).size := rfl
  rw [hsz]
  unfold log__ensure_capacity
  split
  · exact h
  · exact ring_size_ok_grow h

theorem log_truncate_size (l : RaftLog) (i : Nat) :
    (log__truncate l i).size = 0 ∨ (log__truncate l i).size = l.size := by
  unfold log__truncate
  split
  · right; rfl
  · split
    · left; rfl
    · right; rfl

theorem log_shift_size (l : RaftLog) (i : Nat) :
    (log__shift l i).size = 0 ∨ (log__shift l i).size = l.size := by
  unfold log__shift
  split
  · right; rfl
  · split
    · left; rfl
    · right; rfl

theorem log_acquire_size (l : RaftLog) (i : Nat) :
    (log__acquire l i).2.size = l.size := by
  unfold log__acquire
  split <;> rfl

/-- Claim C4 (amended): in every reachable log state, the ring capacity size
is either 0, when no slots are allocated, or at least 2 with size + 2 a power
of two (so the capacities are 2, 6, 14, 30, ...); this invariant is preserved
by every log operation (append, append_configuration, truncate, shift,
set_offset, as well as acquire and release). -/
theorem log_size_invariant (l : RaftLog) (h : LogReachable l) : RingSizeOk l.size := by
  induction h with
  | init => exact Or.inl rfl
  | append l term type buf batch _ ih => exact log_append_size_ok l term type buf batch ih
  | append_configuration l term c _ ih =>
      exact log_append_size_ok l term RaftEntryType.configuration (configuration__encode c) 0 ih
  | truncate l i _ ih =>
      rcases log_truncate_size l i with h0 | hs
      · rw [h0]; exact Or.inl rfl
      · rw [hs]; exact ih
  | shift l i _ ih =>
      rcases log_shift_size l i with h0 | hs
      · rw [h0]; exact Or.inl rfl
      · rw [hs]; exact ih
  | set_offset l o _ ih => exact ih
  | acquire l i _ ih => rw [log_acquire_size]; exact ih
  | release l i slice _ ih => exact ih

/-- Witness for C4: the log obtained by two appends from a fresh log is
reachable and its capacity 6 satisfies the amended invariant. -/
theorem log_size_invariant_witness : RingSizeOk sampleLog2.size :=
  log_size_invariant sampleLog2
    (LogReachable.append sampleLog1 1 RaftEntryType.command [8] 0
      (LogReachable.append log__init 1 RaftEntryType.command [7] 0 LogReachable.init))

/-- Counterexample to C4 as stated: after two appends from a fresh log (a
reachable state) the ring capacity is 6, which is not a power of two; the
capacities actually follow the power-of-two-minus-two cadence, as the log test
suite asserts (TEST_CASE(append, two) expects size 6). -/
theorem log_size_power_of_two_counterexample :
    LogReachable sampleLog2 ∧ sampleLog2.size = 6 ∧ ¬ ∃ k, sampleLog2.size = 2 ^ k := by
  refine ⟨LogReachable.append sampleLog1 1 RaftEntryType.command [8] 0
    (LogReachable.append log__init 1 RaftEntryType.command [7] 0 LogReachable.init),
    by decide, ?_⟩
  rintro ⟨k, hk⟩
  have h6 : sampleLog2.size = 6 := by decide
  rw [h6] at hk
  rcases k with _ | _ | _ | k
  · norm_num at hk
  · norm_num at hk
  · norm_num at hk
  · have h1 : 0 < 2 ^ k := pow_pos (by norm_num) k
    have h8 : 2 ^ (k + 3) = 2 ^ k * 8 := by ring
    omega

theorem liveEntries_getElem (l : RaftLog) (i : Nat) (h : i < (liveEntries l).length) :
    (liveEntries l)[i] = (slotAt l ((l.front + i) % l.size)).getD default := by
  unfold liveEntries
  rw [List.getElem_map, List.getElem_range]

/-- Claim C5: starting from an empty log, append grows the ring exactly when
the slot count would be exceeded, with the new capacity computed as
next_size = 2 * size + 2 from an initial capacity of 2 (so successive
capacities are 2, 6, 14, 30, ...), and on each growth the live entries are
re-laid out in index order starting at slot 0 (front = 0), followed by the
newly appended entry. -/
theorem log_append_growth_spec (l : RaftLog) (term : Nat) (type : RaftEntryType)
    (buf : List Nat) (batch : Nat) :
    (log__n_entries l + 1 < l.size →
      (log__append l term type buf batch).size = l.size ∧
      (log__append l term type buf batch).front = l.front) ∧
    (l.size ≤ log__n_entries l + 1 →
      (log__append l term type buf batch).size = 2 * l.size + 2 ∧
      (log__append l term type buf batch).front = 0 ∧
      liveEntries (log__append l term type buf batch) =
        liveEntries l ++ [{ term := term, type := type, buf := buf, batch := batch }]) := by
  constructor
  · intro h
    unfold log__append
    rw [log_ensure_capacity_of_lt l h]
    exact ⟨rfl, rfl⟩
  · intro h
    have hn := n_entries_le_size l
    set n := log__n_entries l with hndef
    set S := 2 * l.size + 2 with hSdef
    have hnS : n + 1 < S := by omega
    have hback : (n + 1) % S = n + 1 := Nat.mod_eq_of_lt hnS
    have happ : log__append l term type buf batch =
        { entries := ((liveEntries l).map some ++ List.replicate (S - n) none).set n
            (some { term := term, type := type, buf := buf, batch := batch })
          size := S
          front := 0
          back := (n + 1) % S
          offset := l.offset
          refs := refs_insert l.refs (l.offset + n + 1) term } := by
      unfold log__append
      rw [log_ensure_capacity_of_ge l h]
    rw [happ]
    refine ⟨rfl, rfl, ?_⟩
    have hElen : (((liveEntries l).map some ++ List.replicate (S - n) none)).length = S := by
      rw [List.length_append, List.length_map, liveEntries_length, List.length_replicate]
      omega
    have hn2 : log__n_entries
        { entries := ((liveEntries l).map some ++ List.replicate (S - n) none).set n
            (some { term := term, type := type, buf := buf, batch := batch })
          size := S
          front := 0
          back := (n + 1) % S
          offset := l.offset
          refs := refs_insert l.refs (l.offset + n + 1) term } = n + 1 := by
      unfold log__n_entries
      dsimp only
      rw [if_neg (by omega), hback, Nat.sub_zero, Nat.add_mod_right]
      exact hback
    apply List.ext_getElem
    · rw [liveEntries_length, hn2, List.length_append, liveEntries_length]
      rfl
    · intro i hi1 hi2
      have hiS : i < n + 1 := by rwa [liveEntries_length, hn2] at hi1
      rw [liveEntries_getElem _ _ hi1]
      dsimp only
      have hidx : (0 + i) % S = i := by
        rw [Nat.zero_add]
        exact Nat.mod_eq_of_lt (by omega)
      rw [hidx]
      unfold slotAt
      dsimp only
      by_cases hin : i = n
      · subst hin
        rw [List.getElem?_set_eq_of_lt _ (by rw [hElen]; omega)]
        rw [List.getElem_append_right (by rw [liveEntries_length])]
        simp [liveEntries_length]
      · rw [List.getElem?_set_ne (fun hne => hin hne.symm)]
        rw [List.getElem?_append_left (by rw [List.length_map, liveEntries_length]; omega)]
        rw [List.getElem?_map]
        rw [List.getElem?_eq_getElem (by rw [liveEntries_length]; omega)]
        rw [List.getElem_append_left (by rw [liveEntries_length]; omega)]
        rfl

/-- Witness for C5: appending to the one-entry log of capacity 2 would exceed
its slots, so the ring grows to capacity 2 * 2 + 2 = 6 with the two live
entries laid out from slot 0. -/
theorem log_append_growth_spec_witness :
    sampleLog1.size ≤ log__n_entries sampleLog1 + 1 ∧
    (log__append sampleLog1 2 RaftEntryType.command [9] 0).size = 2 * sampleLog1.size + 2 ∧
    (log__append sampleLog1 2 RaftEntryType.command [9] 0).front = 0 ∧
    liveEntries (log__append sampleLog1 2 RaftEntryType.command [9] 0) =
      liveEntries sampleLog1 ++
        [{ term := 2, type := RaftEntryType.command, buf := [9], batch := 0 }] :=
  ⟨by decide, (log_append_growth_spec sampleLog1 2 RaftEntryType.command [9] 0).2 (by decide)⟩

/-- Arithmetic core of the shift rule: moving the front of a well-formed ring
forward by rm slots (rm at most the current count) leaves count - rm live
entries. -/
theorem ring_shift_count (f b s rm : Nat) (hs : 0 < s) (hf : f < s) (hb : b < s)
    (hrm : rm ≤ (b + s - f) % s) :
    (b + s - (f + rm) % s) % s = (b + s - f) % s - rm := by
  have hn : (b + s - f) % s = if f ≤ b then b - f else b + s - f := by
    rw [mod_of_lt_two_mul _ _ hs (by omega)]
    split_ifs <;> omega
  rw [hn] at hrm ⊢
  have hfr : (f + rm) % s = if f + rm < s then f + rm else f + rm - s := by
    refine mod_of_lt_two_mul _ _ hs (by split_ifs at hrm <;> omega)
  rw [hfr]
  rw [mod_of_lt_two_mul _ _ hs (by split_ifs at hrm ⊢ <;> omega)]
  split_ifs at hrm ⊢ <;> omega

/-- Claim C6 (amended): for every well-formed non-empty log and every index k
with first_index <= k <= last_index, shift(k) sets first_index to k + 1 and
leaves last_index unchanged when k < last_index; when k = last_index the
shift removes all live entries and both first_index and last_index become 0
(not just first_index: the emptied log reports last_index 0 as well). -/
theorem log_shift_spec (l : RaftLog) (k : Nat) (hwf : LogWF l)
    (hn : 0 < log__n_entries l)
    (h1 : log__first_index l ≤ k) (h2 : k ≤ log__last_index l) :
    (k < log__last_index l →
      log__first_index (log__shift l k) = k + 1 ∧
      log__last_index (log__shift l k) = log__last_index l) ∧
    (k = log__last_index l →
      log__first_index (log__shift l k) = 0 ∧
      log__last_index (log__shift l k) = 0) := by
  have hs : 0 < l.size := size_pos_of_n_entries_pos l hn
  obtain ⟨hlen, hz, hfb⟩ := hwf
  obtain ⟨hf, hb⟩ := hfb hs
  have hfirst : log__first_index l = l.offset + 1 := by
    unfold log__first_index
    rw [if_neg (by omega)]
  have hlast : log__last_index l = l.offset + log__n_entries l := by
    unfold log__last_index
    rw [if_neg (by omega)]
  rw [hfirst] at h1
  have hguard : ¬ (log__n_entries l = 0 ∨ log__last_index l < k ∨ k ≤ l.offset) := by
    rw [hlast]
    rw [hlast] at h2
    omega
  have hne : log__n_entries l = (l.back + l.size - l.front) % l.size := by
    unfold log__n_entries
    rw [if_neg (by omega)]
  constructor
  · intro hk
    rw [hlast] at hk
    have hkeep : ¬ (log__n_entries l - (k - l.offset) = 0) := by omega
    unfold log__shift
    rw [if_neg hguard, if_neg hkeep]
    have hcount :
        log__n_entries
          { l with
            front := (l.front + (k - l.offset)) % l.size
            offset := k
            refs := refs_decr_slice l.refs (l.offset + 1) (shiftSlice l k) } =
          log__n_entries l - (k - l.offset) := by
      have hrm : k - l.offset ≤ (l.back + l.size - l.front) % l.size := by omega
      rw [hne]
      unfold log__n_entries
      dsimp only
      rw [if_neg (by omega)]
      rw [ring_shift_count l.front l.back l.size (k - l.offset) hs hf hb hrm]
    constructor
    · unfold log__first_index
      rw [hcount]
      dsimp only
      rw [if_neg (by omega)]
    · rw [hlast]
      unfold log__last_index
      rw [hcount]
      dsimp only
      rw [if_neg (by omega)]
      omega
  · intro hk
    rw [hlast] at hk
    have hkeep : log__n_entries l - (k - l.offset) = 0 := by omega
    unfold log__shift
    rw [if_neg hguard, if_pos hkeep]
    exact ⟨rfl, rfl⟩

/-- Counterexample to C6 as stated: shifting the one-entry log up to its last
index 1 empties it, and the emptied log reports last_index 0, so shift does
not leave last_index unchanged in the remove-all case (first_index becomes 0
as the claim says). -/
theorem log_shift_counterexample :
    0 < log__n_entries sampleLog1 ∧
    log__first_index sampleLog1 = 1 ∧
    log__last_index sampleLog1 = 1 ∧
    log__last_index (log__shift sampleLog1 1) = 0 ∧
    log__first_index (log__shift sampleLog1 1) = 0 := by
  decide

/-- Witness for C6 (amended): shifting the two-entry log up to index 1 keeps
last_index 2 and moves first_index to 2. -/
theorem log_shift_spec_witness :
    LogWF sampleLog2 ∧ 0 < log__n_entries sampleLog2 ∧
    log__first_index sampleLog2 ≤ 1 ∧ 1 ≤ log__last_index sampleLog2 ∧
    log__first_index (log__shift sampleLog2 1) = 1 + 1 ∧
    log__last_index (log__shift sampleLog2 1) = log__last_index sampleLog2 :=
  ⟨⟨by decide, by decide, by decide⟩, by decide, by decide, by decide,
    (log_shift_spec sampleLog2 1 ⟨by decide, by decide, by decide⟩ (by decide) (by decide)
      (by decide)).1 (by decide)⟩

/-- Incrementing and then decrementing the cells matched by the same slice
restores every reference count. -/
theorem refs_decr_incr (refs : List RaftEntryRef) (index : Nat) (slice : List RaftEntry) :
    refs_decr_slice (refs_incr_slice refs index slice) index slice = refs := by
  unfold refs_decr_slice refs_incr_slice
  rw [List.map_map]
  apply List.map_id''
  intro c
  by_cases hb :
      (slice.enum.any fun p => c.index == index + p.1 && c.term == p.2.term) = true
  · simp [Function.comp, hb]
  · simp [Function.comp, hb]

/-- Claim C7: for every log and every index i in the live range
(offset < i <= last_index), performing acquire(i) and then release(i) on the
returned slice leaves the refs table unchanged: every reference count returns
to the value it had before the acquire. -/
theorem log_acquire_release_spec (l : RaftLog) (i : Nat)
    (h1 : l.offset < i) (h2 : i ≤ log__last_index l) :
    (log__release (log__acquire l i).2 i (log__acquire l i).1).refs = l.refs := by
  have hg : ¬ (i ≤ l.offset ∨ log__last_index l < i) := by omega
  unfold log__acquire
  rw [if_neg hg]
  unfold log__release
  exact refs_decr_incr l.refs i (acquireSlice l i)

/-- Witness for C7: acquiring index 1 of the two-entry log bumps both counts
to 2, and releasing the returned slice restores the original refs table. -/
theorem log_acquire_release_spec_witness :
    sampleLog2.offset < 1 ∧ 1 ≤ log__last_index sampleLog2 ∧
    (log__release (log__acquire sampleLog2 1).2 1 (log__acquire sampleLog2 1).1).refs =
      sampleLog2.refs :=
  ⟨by decide, by decide, log_acquire_release_spec sampleLog2 1 (by decide) (by decide)⟩

/-- Claim C8: in a bootstrapped 3-server cluster in which server 0 has been
elected leader, after the leader submits one command adding 1 to the FSM
register x and the cluster is stepped until all three servers have
last_applied = 2, the FSM of every one of the three servers has x = 1. -/
theorem step_until_applied_one_spec :
    ((raft_fixture_step_until_applied (cluster_submit cluster3_bootstrapped 1) 3 2
        2000).servers.all (fun s => s.last_applied == 2)) = true ∧
    ((raft_fixture_step_until_applied (cluster_submit cluster3_bootstrapped 1) 3 2
        2000).servers.all (fun s => s.x == 1)) = true := by
  constructor <;> decide
